import Mathlib

/-!
Verification of the Flower_bot order-capture flow, catalog cache and admin
fan-out, as implemented in src/app/handlers/user.py, src/app/models.py,
src/app/states.py and src/app/config.py. Pure-functional shallow embedding:
aiogram FSM state and data become explicit values, the relational store a
list of rows, the transport a boolean success function.
-/

namespace FlowerBot

/-- Calendar date as produced by `datetime.strptime(s, "%d.%m.%Y")`. -/
structure Date where
  day : Nat
  month : Nat
  year : Nat
deriving DecidableEq, Repr

/-- Gregorian leap-year rule used by Python `datetime`. -/
def isLeapYear (y : Nat) : Bool :=
  y % 4 == 0 && (y % 100 != 0 || y % 400 == 0)

/-- Days in a month, as validated by the `datetime` constructor. -/
def daysInMonth (y m : Nat) : Nat :=
  if m == 2 then (if isLeapYear y then 29 else 28)
  else if m == 4 || m == 6 || m == 9 || m == 11 then 30
  else 31

/-- Whitespace stripped by Python `str.strip()` (ASCII part). -/
def pyIsSpace (c : Char) : Bool :=
  c == ' ' || c == '\t' || c == '\n' || c == '\r' || c == '\x0b' || c == '\x0c'

/-- `str.strip()` on the character list. -/
def pyStripList (l : List Char) : List Char :=
  ((l.dropWhile pyIsSpace).reverse.dropWhile pyIsSpace).reverse

/-- Python `str.strip()` with no arguments. -/
def pyStrip (s : String) : String :=
  ⟨pyStripList s.data⟩

/-- Split a character list on the literal dot, as the `%d.%m.%Y` regex
    delimits its all-digit groups. -/
def splitDots : List Char → List (List Char)
  | [] => [[]]
  | c :: rest =>
    if c = '.' then [] :: splitDots rest
    else
      match splitDots rest with
      | [] => [[c]]
      | h :: t => (c :: h) :: t

def charsToNat (l : List Char) : Nat :=
  l.foldl (fun n c => n * 10 + (c.toNat - 48)) 0

/-- CPython `_strptime` day group `3[01]|[12]\d|0[1-9]|[1-9]` and month group
    `1[0-2]|0[1-9]|[1-9]`: one or two digits whose value lies in `[1, hi]`. -/
def parseGroup2 (hi : Nat) (l : List Char) : Option Nat :=
  if (1 ≤ l.length ∧ l.length ≤ 2) ∧ l.all Char.isDigit then
    let v := charsToNat l
    if 1 ≤ v ∧ v ≤ hi then some v else none
  else none

/-- CPython `_strptime` year group `\d\d\d\d`: exactly four digits. -/
def parseGroup4 (l : List Char) : Option Nat :=
  if l.length = 4 ∧ l.all Char.isDigit then some (charsToNat l) else none

/-- `datetime.strptime(s, "%d.%m.%Y")`: the format regex must consume the whole
    string, then `datetime(year, month, day)` validates the calendar date
    (`MINYEAR = 1`, day within the month). -/
def strptimeDMY (s : String) : Option Date :=
  match splitDots s.data with
  | [ds, ms, ys] =>
    match parseGroup2 31 ds, parseGroup2 12 ms, parseGroup4 ys with
    | some d, some m, some y =>
      if 1 ≤ y ∧ d ≤ daysInMonth y m then some ⟨d, m, y⟩ else none
    | _, _, _ => none
  | _ => none

/-- `RequestStatus` enum from src/app/models.py. -/
inductive RequestStatus
  | new
  | in_work
  | done
  | canceled
deriving DecidableEq, Repr

/-- The aiogram `FSMContext` data dictionary as used by the order flow in
    src/app/handlers/user.py; a key that was never written is `none`. -/
structure DraftData where
  product_id : Option Nat := none
  need_datetime : Option Date := none
  delivery_type : Option String := none
  payment_type : Option String := none
  customer_name : Option String := none
  phone : Option String := none
  address : Option String := none
  comment : Option String := none
deriving DecidableEq, Repr

/-- The data dictionary right after `state.clear()`. -/
def emptyDraft : DraftData := {}

/-- `RequestFSM` states (src/app/states.py) plus `idle` for "no state set". -/
inductive DialogState
  | idle
  | need_date
  | delivery_type
  | address
  | payment_type
  | customer_name
  | phone
  | comment
  | confirm
deriving DecidableEq, Repr

/-- Messages the bot sends back to the invoking user, abstracted from the
    rendered texts in src/app/handlers/user.py. -/
inductive Reply
  | promptDate
  | errorBadDate
  | promptDelivery
  | promptPayment
  | promptName
  | promptPhone
  | promptAddress
  | promptComment
  | confirmSummary
  | requestSent
  | mainMenu
  | canceledToast
  | notRecognized
deriving DecidableEq, Repr

/-- `req_start`: `update_data(product_id=...)` merges one key into the data
    dictionary, then the state is set to `need_date` and the date prompt sent. -/
def req_start (pid : Nat) (d : DraftData) : DialogState × DraftData × List Reply :=
  (DialogState.need_date, { d with product_id := some pid }, [Reply.promptDate])

/-- `req_need_date`: parse the stripped text with `%d.%m.%Y`; on success record
    it and advance to delivery selection, on `ValueError` answer the format
    error and return with no state or data change. -/
def req_need_date (text : String) (d : DraftData) : DialogState × DraftData × List Reply :=
  match strptimeDMY (pyStrip text) with
  | some dt =>
    (DialogState.delivery_type, { d with need_datetime := some dt }, [Reply.promptDelivery])
  | none => (DialogState.need_date, d, [Reply.errorBadDate])

/-- `req_delivery`: record the chosen delivery type and go straight to the
    payment prompt. -/
def req_delivery (dt : String) (d : DraftData) : DialogState × DraftData × List Reply :=
  (DialogState.payment_type, { d with delivery_type := some dt }, [Reply.promptPayment])

/-- `req_payment`: record the payment type and ask for the customer name. -/
def req_payment (pt : String) (d : DraftData) : DialogState × DraftData × List Reply :=
  (DialogState.customer_name, { d with payment_type := some pt }, [Reply.promptName])

/-- `req_customer_name`: record the stripped name and ask for the phone. -/
def req_customer_name (text : String) (d : DraftData) : DialogState × DraftData × List Reply :=
  (DialogState.phone, { d with customer_name := some (pyStrip text) }, [Reply.promptPhone])

/-- `req_phone`: store the phone, then branch on `data["delivery_type"]`:
    courier (`"delivery"`) goes to the address state, otherwise to the comment
    state. A missing key raises `KeyError` after the phone was stored. -/
def req_phone (text : String) (d : DraftData) : DialogState × DraftData × List Reply :=
  let d' : DraftData := { d with phone := some (pyStrip text) }
  match d'.delivery_type with
  | some dt =>
    if dt = "delivery" then (DialogState.address, d', [Reply.promptAddress])
    else (DialogState.comment, d', [Reply.promptComment])
  | none => (DialogState.phone, d', [])

/-- `req_address`: record the stripped address and move to the comment state. -/
def req_address (text : String) (d : DraftData) : DialogState × DraftData × List Reply :=
  (DialogState.comment, { d with address := some (pyStrip text) }, [Reply.promptComment])

/-- `req_comment`: record the stripped comment, then `show_confirm` sets the
    confirm state and renders the summary. -/
def req_comment (text : String) (d : DraftData) : DialogState × DraftData × List Reply :=
  (DialogState.confirm, { d with comment := some (pyStrip text) }, [Reply.confirmSummary])

/-- `skip_comment_handler`: `update_data(comment=None)` then `show_confirm`. -/
def skip_comment_handler (d : DraftData) : DialogState × DraftData × List Reply :=
  (DialogState.confirm, { d with comment := none }, [Reply.confirmSummary])

/-- `req_cancel`: `state.clear()` drops both the state and the whole data
    dictionary, then `back_to_start` renders the main menu and the toast
    answers the callback. -/
def req_cancel : DialogState × DraftData × List Reply :=
  (DialogState.idle, emptyDraft, [Reply.mainMenu, Reply.canceledToast])

/-- `users` row (src/app/models.py) restricted to the columns the commit path
    reads: surrogate id and the Telegram id it is looked up by. -/
structure User where
  id : Nat
  tg_id : Nat
deriving DecidableEq, Repr

/-- A persisted `requests` row (src/app/models.py) as created by `req_confirm`. -/
structure RequestRecord where
  user_id : Nat
  product_id : Option Nat
  customer_name : Option String
  phone : Option String
  delivery_type : Option String
  address : Option String
  payment_type : Option String
  comment : Option String
  need_datetime : Option Date
  status : RequestStatus
deriving DecidableEq, Repr

/-- `session.scalar(select(User).where(User.tg_id == c.from_user.id))`. -/
def findUser (users : List User) (tg : Nat) : Option User :=
  users.find? (fun u => u.tg_id == tg)

/-- The `Request(...)` constructed in `req_confirm`: every column is taken
    directly from the draft dictionary, the status is `NEW`. -/
def mkRequest (uid pid : Nat) (d : DraftData) : RequestRecord :=
  { user_id := uid
    product_id := some pid
    customer_name := d.customer_name
    phone := d.phone
    delivery_type := d.delivery_type
    address := d.address
    payment_type := d.payment_type
    comment := d.comment
    need_datetime := d.need_datetime
    status := RequestStatus.new }

/-- The admin fan-out loop after commit: one `send_message` attempt per
    configured admin id; an exception from one attempt is logged and the loop
    continues with the next recipient. -/
def notifyAdmins (admins : List Nat) (transport : Nat → Bool) : List (Nat × Bool) :=
  admins.map (fun a => (a, transport a))

/-- One conversation's aiogram session: current state and data dictionary. -/
structure BotState where
  dialog : DialogState
  draft : DraftData
deriving DecidableEq, Repr

/-- Everything `req_confirm` leaves behind: the requests table, the session,
    the replies shown to the submitting user, and the notification attempts
    (admin id paired with that delivery's success). -/
structure ConfirmResult where
  store : List RequestRecord
  session : BotState
  userReplies : List Reply
  attempts : List (Nat × Bool)
deriving DecidableEq, Repr

/-- `req_confirm`: look the user up, build one `Request` row, `session.add` +
    `session.commit()` in a single transaction, then `state.clear()`, the
    success message, and the fan-out. If the store is unreachable (`dbUp`
    false) the transaction raises before anything is persisted and the
    handler aborts: the table, state and draft are all left untouched. The
    same holds when the user row is missing (`AttributeError` on `user.id`)
    or the draft has no `product_id` (`KeyError`). -/
def req_confirm (admins : List Nat) (transport : Nat → Bool) (users : List User)
    (tgid : Nat) (dbUp : Bool) (s : BotState) (store : List RequestRecord) :
    ConfirmResult :=
  if dbUp then
    match findUser users tgid, s.draft.product_id with
    | some u, some pid =>
      { store := store ++ [mkRequest u.id pid s.draft]
        session := { dialog := DialogState.idle, draft := emptyDraft }
        userReplies := [Reply.requestSent]
        attempts := notifyAdmins admins transport }
    | _, _ => { store := store, session := s, userReplies := [], attempts := [] }
  else { store := store, session := s, userReplies := [], attempts := [] }

/-- The discrete inputs the order-flow routing in src/app/handlers/user.py
    reacts to: a text message or one of the flow's callback buttons. -/
inductive Event
  | msg (text : String)
  | cbReqStart (pid : Nat)
  | cbDelivery (dt : String)
  | cbPay (pt : String)
  | cbSkipComment
  | cbConfirmYes
  | cbCancel
deriving DecidableEq, Repr

/-- A conversation session together with the shared requests table. -/
structure World where
  session : BotState
  store : List RequestRecord
deriving DecidableEq, Repr

/-- Texts captured by `start_handler`, which is registered before the
    state-filtered message handlers. -/
def isStartText (t : String) : Bool :=
  t == "/start" || t == "🏠 Главное меню"

/-- Message routing: `start_handler` first, then the handler registered for
    the current `RequestFSM` state, then the catch-all fallback. -/
def stepMsg (text : String) (s : BotState) : DialogState × DraftData × List Reply :=
  if isStartText text then (s.dialog, s.draft, [Reply.mainMenu])
  else
    match s.dialog with
    | DialogState.need_date => req_need_date text s.draft
    | DialogState.customer_name => req_customer_name text s.draft
    | DialogState.phone => req_phone text s.draft
    | DialogState.address => req_address text s.draft
    | DialogState.comment => req_comment text s.draft
    | _ => (s.dialog, s.draft, [Reply.notRecognized])

/-- One dispatcher round for one conversation. Callback routing mirrors the
    registered filters: `req:start:` and `req:cancel` carry no state filter
    and fire in any state; the other flow callbacks only fire in the state
    they are registered for, otherwise no handler runs. -/
def step (admins : List Nat) (transport : Nat → Bool) (users : List User)
    (tgid : Nat) (dbUp : Bool) (w : World) (e : Event) :
    World × List Reply × List (Nat × Bool) :=
  match e with
  | Event.msg text =>
    let r := stepMsg text w.session
    (⟨⟨r.1, r.2.1⟩, w.store⟩, r.2.2, [])
  | Event.cbReqStart pid =>
    let r := req_start pid w.session.draft
    (⟨⟨r.1, r.2.1⟩, w.store⟩, r.2.2, [])
  | Event.cbDelivery dt =>
    if w.session.dialog = DialogState.delivery_type then
      let r := req_delivery dt w.session.draft
      (⟨⟨r.1, r.2.1⟩, w.store⟩, r.2.2, [])
    else (w, [], [])
  | Event.cbPay pt =>
    if w.session.dialog = DialogState.payment_type then
      let r := req_payment pt w.session.draft
      (⟨⟨r.1, r.2.1⟩, w.store⟩, r.2.2, [])
    else (w, [], [])
  | Event.cbSkipComment =>
    if w.session.dialog = DialogState.comment then
      let r := skip_comment_handler w.session.draft
      (⟨⟨r.1, r.2.1⟩, w.store⟩, r.2.2, [])
    else (w, [], [])
  | Event.cbConfirmYes =>
    if w.session.dialog = DialogState.confirm then
      let r := req_confirm admins transport users tgid dbUp w.session w.store
      (⟨r.session, r.store⟩, r.userReplies, r.attempts)
    else (w, [], [])
  | Event.cbCancel =>
    (⟨⟨req_cancel.1, req_cancel.2.1⟩, w.store⟩, req_cancel.2.2, [])

/-- Run a list of events through `step`, keeping only the world. -/
def runEvents (admins : List Nat) (transport : Nat → Bool) (users : List User)
    (tgid : Nat) (dbUp : Bool) (w : World) : List Event → World
  | [] => w
  | e :: es =>
    runEvents admins transport users tgid dbUp
      (step admins transport users tgid dbUp w e).1 es

/-- `products` row as declared in src/app/models.py, restricted to the
    columns the count query filters on. The model declares no `is_in_stock`
    column, although src/app/handlers/user.py references one. -/
structure Product where
  id : Nat
  title : String
  price : Nat
  category : String
  is_active : Bool
deriving DecidableEq, Repr

/-- `CategoryEnum(category)` succeeds only for the two declared members;
    any other string raises `ValueError` while the query is being built. -/
def knownCategory (c : String) : Bool :=
  c == "bouquet" || c == "composition"

/-- The `where` clause shared by the count query and the (never-executed)
    list query: category, active flag and inclusive price bounds. -/
def matchesFilter (c : String) (minP maxP : Nat) (p : Product) : Bool :=
  p.category == c && p.is_active && decide (minP ≤ p.price) && decide (p.price ≤ maxP)

/-- The `select(func.count(Product.id))` validation query; it touches only
    columns that exist on the model, so it executes normally. -/
def countProducts (store : List Product) (c : String) (minP maxP : Nat) : Nat :=
  (store.filter (matchesFilter c minP maxP)).length

/-- Exceptions the fetch path can raise. -/
inductive PyErr
  | attributeError
  | valueError
deriving DecidableEq, Repr

/-- The fresh-fetch statement (user.py lines 102-115): the `where` clause
    evaluates `CategoryEnum(category)` first — `ValueError` for an unknown
    category — and then `order_by` evaluates `Product.is_in_stock`, a column
    the `Product` model in src/app/models.py does not declare, raising
    `AttributeError`. The query is never executed, no list is ever produced,
    and the cache write on user.py line 118 is unreachable. -/
def freshFetch (category : String) : PyErr :=
  if knownCategory category then PyErr.attributeError else PyErr.valueError

/-- `CATALOG_TTL = 300` seconds. -/
def CATALOG_TTL : Nat := 300

/-- Cache key: `(category, min_price, max_price)`. -/
abbrev CacheKey := String × Nat × Nat

/-- The in-process module state: the `_CATALOG_CACHE` dictionary (value =
    product list with its fetch timestamp) and `_last_catalog_version`. -/
structure CacheState where
  entries : List (CacheKey × (List Product × Nat))
  lastVersion : Option String
deriving DecidableEq, Repr

/-- Dictionary lookup `_CATALOG_CACHE.get(key)`. -/
def cacheGet : List (CacheKey × (List Product × Nat)) → CacheKey →
    Option (List Product × Nat)
  | [], _ => none
  | kv :: rest, k => if kv.1 = k then some kv.2 else cacheGet rest k

/-- Dictionary assignment `_CATALOG_CACHE[key] = value` (user.py line 118).
    In this source snapshot the statement is unreachable: the fetch above it
    always raises, so nothing is ever stored through it. -/
def cacheSet : List (CacheKey × (List Product × Nat)) → CacheKey →
    (List Product × Nat) → List (CacheKey × (List Product × Nat))
  | [], k, v => [(k, v)]
  | kv :: rest, k, v =>
    if kv.1 = k then (k, v) :: rest else kv :: cacheSet rest k v

/-- Contents of `data/catalog_cache_version.txt` as read at the top of
    `get_products_cached`: a missing file or a read error yields `"0"`. -/
def readVersion (file : Option String) : String :=
  match file with
  | some s => pyStrip s
  | none => "0"

/-- The cross-process version check performed on every call: if the marker
    differs from `_last_catalog_version`, `_CATALOG_CACHE.clear()` runs and
    the new marker is remembered. -/
def cacheAfterVersionCheck (cs0 : CacheState) (current : String) : CacheState :=
  if cs0.lastVersion = some current then cs0
  else { entries := [], lastVersion := some current }

/-- How one call to `get_products_cached` ends: a returned list, or the
    exception it raised. -/
inductive FetchOutcome
  | ok (items : List Product)
  | raised (e : PyErr)
deriving DecidableEq, Repr

/-- What one call to `get_products_cached` returns and leaves behind: the
    produced list or the exception the call raised, the module cache state
    after the call (version-check mutations persist even when the call then
    raises), and whether the count validation query actually executed. -/
structure FetchCall where
  outcome : FetchOutcome
  cache : CacheState
  countQueried : Bool
deriving DecidableEq, Repr

/-- The body of `get_products_cached` after the version check. A cached entry
    within TTL is validated by the count query — built after
    `CategoryEnum(category)`, so an unknown category raises `ValueError`
    before any round-trip — and served on a match. Every other path (count
    mismatch, TTL expiry, miss) falls into the fresh fetch, which raises
    (`freshFetch`) before any list exists, so the cache entries are never
    written. -/
def lookupStage (store : List Product) (now : Nat) (cs : CacheState)
    (c : String) (a b : Nat) : FetchCall :=
  match cacheGet cs.entries (c, a, b) with
  | some (items, ts) =>
    if now - ts < CATALOG_TTL then
      if knownCategory c then
        if countProducts store c a b = items.length then
          { outcome := FetchOutcome.ok items, cache := cs, countQueried := true }
        else { outcome := FetchOutcome.raised (freshFetch c), cache := cs, countQueried := true }
      else { outcome := FetchOutcome.raised PyErr.valueError, cache := cs, countQueried := false }
    else { outcome := FetchOutcome.raised (freshFetch c), cache := cs, countQueried := false }
  | none => { outcome := FetchOutcome.raised (freshFetch c), cache := cs, countQueried := false }

/-- `get_products_cached(category, min_p, max_p)` against an explicit store,
    version file and clock: the cross-process version check runs first on
    every call and its cache mutations persist, then the key lookup and, on
    any non-hit, the always-raising fresh fetch. -/
def get_products_cached (store : List Product) (file : Option String) (now : Nat)
    (cs0 : CacheState) (category : String) (minP maxP : Nat) : FetchCall :=
  lookupStage store now (cacheAfterVersionCheck cs0 (readVersion file))
    category minP maxP

/-- How one `show_product` invocation ends. Besides the empty-list alert,
    every branch raises in this source snapshot: the fetch itself raises
    (propagated), an out-of-range `products[index]` raises `IndexError`
    (user.py line 259), and an in-range item raises `AttributeError` at
    user.py line 265 — `product.is_in_stock` on a model without that column,
    before `kb_product_nav` (called with 6 arguments against 5 declared)
    could even run. -/
inductive NavOutcome
  | noProducts
  | raisedFetchError (e : PyErr)
  | raisedIndexError
  | raisedAttributeError
deriving DecidableEq, Repr

/-- `show_product` down to its failure structure: fetch, empty-list guard,
    `products[index]`, then the `product.is_in_stock` access (rendering
    itself is external). Returns the outcome and the module cache state the
    call leaves behind. -/
def show_product (store : List Product) (file : Option String) (now : Nat)
    (cs0 : CacheState) (category : String) (minP maxP : Nat) (index : Nat) :
    NavOutcome × CacheState :=
  let call := get_products_cached store file now cs0 category minP maxP
  match call.outcome with
  | FetchOutcome.raised e => (NavOutcome.raisedFetchError e, call.cache)
  | FetchOutcome.ok products =>
    if products.isEmpty then (NavOutcome.noProducts, call.cache)
    else
      match products[index]? with
      | some _ => (NavOutcome.raisedAttributeError, call.cache)
      | none => (NavOutcome.raisedIndexError, call.cache)

/-- A concrete active bouquet used by the concrete instances. -/
def sampleProduct (i : Nat) : Product :=
  { id := i, title := "Bouquet", price := 3000, category := "bouquet",
    is_active := true }

/-- One registered user: surrogate id 7, Telegram id 100. -/
def scenarioUsers : List User := [{ id := 7, tg_id := 100 }]

/-- The walkthrough from the testable-properties scenario: pick product 2,
    date 03.03.2026, pickup, cash, name Anna, a phone, skip the comment,
    confirm. -/
def scenarioEvents : List Event :=
  [Event.cbReqStart 2, Event.msg "03.03.2026", Event.cbDelivery "pickup",
   Event.cbPay "cash", Event.msg "Anna", Event.msg "+70000000000",
   Event.cbSkipComment, Event.cbConfirmYes]

/-- The draft that walkthrough accumulates by the confirmation step. -/
def scenarioDraft : DraftData :=
  { product_id := some 2, need_datetime := some ⟨3, 3, 2026⟩,
    delivery_type := some "pickup", payment_type := some "cash",
    customer_name := some "Anna", phone := some "+70000000000",
    address := none, comment := none }

/-- The row that committing `scenarioDraft` for user 7 produces. -/
def scenarioRecord : RequestRecord := mkRequest 7 2 scenarioDraft

/-- The walkthrough run from an idle session over an empty requests table. -/
def scenarioRun : World :=
  runEvents [11, 12] (fun _ => true) scenarioUsers 100 true
    ⟨⟨DialogState.idle, emptyDraft⟩, []⟩ scenarioEvents

/-- Leftovers of an abandoned courier draft: the conversation sits in the
    address state with a delivery type and an address already stored. -/
def staleDraft : DraftData :=
  { emptyDraft with delivery_type := some "delivery", address := some "Lenina 5" }

/-- The same pickup walkthrough started on top of the abandoned draft. -/
def staleRun : World :=
  runEvents [11, 12] (fun _ => true) scenarioUsers 100 true
    ⟨⟨DialogState.address, staleDraft⟩, []⟩ scenarioEvents

/-- The committed row of `staleRun`: the pickup order carrying the stale
    courier address. -/
def staleRecord : RequestRecord :=
  mkRequest 7 2 { scenarioDraft with address := some "Lenina 5" }

/-- A cache holding a three-item list stored at time 900 under marker "1"
    (reachable only in the hypothetical where the fetch worked; the entries
    are universally quantified state for the per-call semantics). -/
def staleThreeCache : CacheState :=
  { entries := [(("bouquet", 0, 999999),
      ([sampleProduct 1, sampleProduct 2, sampleProduct 3], 900))]
    lastVersion := some "1" }

/-- A cache holding a one-item list stored at time 900 under marker "1",
    matching the one-product store's count, so a lookup at time 1000 under
    marker "1" is served from it. -/
def oneItemCache : CacheState :=
  { entries := [(("bouquet", 0, 999999), ([sampleProduct 1], 900))]
    lastVersion := some "1" }

/-! Helper lemma about the catalog fetch, shared by several claims. -/

theorem lookupStage_cache_unchanged (store : List Product) (now : Nat)
    (cs : CacheState) (c : String) (a b : Nat) :
    (lookupStage store now cs c a b).cache = cs := by
  unfold lookupStage
  rcases hget : cacheGet cs.entries (c, a, b) with _ | ⟨items, ts⟩ <;> simp only [hget]
  split_ifs <;> rfl

/-! Claim theorems. -/

/-- C1: when the confirm callback fires in the confirmation state and the
    store is reachable, `req_confirm` persists exactly one new `Request` row
    in a single atomic append — the table goes from `store` to
    `store ++ [row]`, so no partial row is ever observable — derived 1:1 from
    the draft fields, owned by the invoking user's row, with initial status
    `new`. -/
theorem confirm_commits_single_order (admins : List Nat) (transport : Nat → Bool)
    (users : List User) (tgid : Nat) (s : BotState) (store : List RequestRecord)
    (u : User) (pid : Nat)
    (hu : findUser users tgid = some u)
    (hp : s.draft.product_id = some pid) :
    req_confirm admins transport users tgid true s store =
      { store := store ++ [mkRequest u.id pid s.draft]
        session := { dialog := DialogState.idle, draft := emptyDraft }
        userReplies := [Reply.requestSent]
        attempts := notifyAdmins admins transport }
    ∧ (store ++ [mkRequest u.id pid s.draft]).length = store.length + 1
    ∧ (mkRequest u.id pid s.draft).status = RequestStatus.new
    ∧ (mkRequest u.id pid s.draft).user_id = u.id
    ∧ (mkRequest u.id pid s.draft).product_id = s.draft.product_id
    ∧ (mkRequest u.id pid s.draft).need_datetime = s.draft.need_datetime
    ∧ (mkRequest u.id pid s.draft).delivery_type = s.draft.delivery_type
    ∧ (mkRequest u.id pid s.draft).payment_type = s.draft.payment_type
    ∧ (mkRequest u.id pid s.draft).customer_name = s.draft.customer_name
    ∧ (mkRequest u.id pid s.draft).phone = s.draft.phone
    ∧ (mkRequest u.id pid s.draft).address = s.draft.address
    ∧ (mkRequest u.id pid s.draft).comment = s.draft.comment := by
  refine ⟨?_, by simp, rfl, rfl, hp.symm, rfl, rfl, rfl, rfl, rfl, rfl, rfl⟩
  simp [req_confirm, hu, hp]

/-- C1 witness: the walkthrough scenario draft (pickup, cash, Anna,
    03.03.2026, no address, no comment) committed by user 7 over an empty
    table yields exactly that one row. -/
theorem confirm_commits_single_order_app :
    req_confirm [11, 12] (fun _ => true) scenarioUsers 100 true
        { dialog := DialogState.confirm, draft := scenarioDraft } [] =
      { store := [mkRequest 7 2 scenarioDraft]
        session := { dialog := DialogState.idle, draft := emptyDraft }
        userReplies := [Reply.requestSent]
        attempts := notifyAdmins [11, 12] (fun _ => true) } :=
  (confirm_commits_single_order [11, 12] (fun _ => true) scenarioUsers 100
    { dialog := DialogState.confirm, draft := scenarioDraft } [] ⟨7, 100⟩ 2
    (by decide) (by decide)).1

/-- C2: with the backing store unreachable, `req_confirm` changes nothing:
    the requests table is exactly the old one (no partial row), the session
    still holds the confirmation state and the full draft for a retry, and
    nobody is notified. The draft is cleared only on the successful-commit
    path. -/
theorem commit_failure_preserves_draft (admins : List Nat) (transport : Nat → Bool)
    (users : List User) (tgid : Nat) (s : BotState) (store : List RequestRecord) :
    req_confirm admins transport users tgid false s store =
      { store := store, session := s, userReplies := [], attempts := [] } := by
  simp [req_confirm]

/-- C3: after a successful commit every configured admin id gets exactly one
    notification attempt, in configuration order, whatever the per-recipient
    transport outcomes are; and the committed row, the cleared session and
    the replies shown to the submitting user are identical under any two
    transport-failure patterns — an individual failure neither blocks later
    attempts nor surfaces to the user nor rolls the commit back. -/
theorem notification_fanout_best_effort (admins : List Nat) (t t' : Nat → Bool)
    (users : List User) (tgid : Nat) (s : BotState) (store : List RequestRecord)
    (u : User) (pid : Nat)
    (hu : findUser users tgid = some u)
    (hp : s.draft.product_id = some pid) :
    (req_confirm admins t users tgid true s store).attempts.map Prod.fst = admins
    ∧ (req_confirm admins t users tgid true s store).store =
        (req_confirm admins t' users tgid true s store).store
    ∧ (req_confirm admins t users tgid true s store).session =
        (req_confirm admins t' users tgid true s store).session
    ∧ (req_confirm admins t users tgid true s store).userReplies =
        (req_confirm admins t' users tgid true s store).userReplies
    ∧ (req_confirm admins t users tgid true s store).store =
        store ++ [mkRequest u.id pid s.draft] := by
  refine ⟨?_, ?_, ?_, ?_, ?_⟩ <;>
    simp only [req_confirm, hu, hp, if_true, notifyAdmins, List.map_map]
  exact List.map_id admins

/-- C3 witness: with two configured admins, a transport where only 11
    succeeds, and one where every delivery fails, both attempts are still made
    and the committed row is the same. -/
theorem notification_fanout_best_effort_app :
    (req_confirm [11, 12] (fun a => a == 11) scenarioUsers 100 true
        { dialog := DialogState.confirm, draft := scenarioDraft } []).attempts.map Prod.fst
      = [11, 12]
    ∧ (req_confirm [11, 12] (fun a => a == 11) scenarioUsers 100 true
        { dialog := DialogState.confirm, draft := scenarioDraft } []).store =
      (req_confirm [11, 12] (fun _ => false) scenarioUsers 100 true
        { dialog := DialogState.confirm, draft := scenarioDraft } []).store
    ∧ (req_confirm [11, 12] (fun a => a == 11) scenarioUsers 100 true
        { dialog := DialogState.confirm, draft := scenarioDraft } []).session =
      (req_confirm [11, 12] (fun _ => false) scenarioUsers 100 true
        { dialog := DialogState.confirm, draft := scenarioDraft } []).session
    ∧ (req_confirm [11, 12] (fun a => a == 11) scenarioUsers 100 true
        { dialog := DialogState.confirm, draft := scenarioDraft } []).userReplies =
      (req_confirm [11, 12] (fun _ => false) scenarioUsers 100 true
        { dialog := DialogState.confirm, draft := scenarioDraft } []).userReplies
    ∧ (req_confirm [11, 12] (fun a => a == 11) scenarioUsers 100 true
        { dialog := DialogState.confirm, draft := scenarioDraft } []).store =
      [] ++ [mkRequest 7 2 scenarioDraft] :=
  notification_fanout_best_effort [11, 12] (fun a => a == 11) (fun _ => false)
    scenarioUsers 100 { dialog := DialogState.confirm, draft := scenarioDraft } []
    ⟨7, 100⟩ 2 (by decide) (by decide)

/-- C6: the `req:cancel` callback carries no state filter, so from every
    dialog state and draft one dispatcher round discards both (state back to
    idle, data dictionary emptied), renders the main menu plus the cancel
    toast, leaves the requests table untouched and notifies nobody: no order
    is created. -/
theorem cancel_from_any_state (admins : List Nat) (transport : Nat → Bool)
    (users : List User) (tgid : Nat) (dbUp : Bool)
    (s : BotState) (store : List RequestRecord) :
    step admins transport users tgid dbUp ⟨s, store⟩ Event.cbCancel =
      (⟨⟨DialogState.idle, emptyDraft⟩, store⟩,
       [Reply.mainMenu, Reply.canceledToast], []) := rfl

/-- C10: `req_start` merges only `product_id` into the data dictionary and
    sets the state to `need_date`; every other accumulated field is carried
    over unchanged. Consequently (final conjuncts) a stale address from an
    abandoned courier draft in the same conversation survives a fresh pickup
    walkthrough and is committed inside the new order. -/
theorem req_start_updates_only_product_and_state (pid : Nat) (d : DraftData) :
    req_start pid d =
      (DialogState.need_date, { d with product_id := some pid }, [Reply.promptDate])
    ∧ ({ d with product_id := some pid } : DraftData).need_datetime = d.need_datetime
    ∧ ({ d with product_id := some pid } : DraftData).delivery_type = d.delivery_type
    ∧ ({ d with product_id := some pid } : DraftData).payment_type = d.payment_type
    ∧ ({ d with product_id := some pid } : DraftData).customer_name = d.customer_name
    ∧ ({ d with product_id := some pid } : DraftData).phone = d.phone
    ∧ ({ d with product_id := some pid } : DraftData).address = d.address
    ∧ ({ d with product_id := some pid } : DraftData).comment = d.comment
    ∧ staleRun.store = [staleRecord]
    ∧ staleRecord.address = some "Lenina 5"
    ∧ staleRecord.delivery_type = some "pickup" :=
  ⟨rfl, rfl, rfl, rfl, rfl, rfl, rfl, rfl, by decide, by decide, by decide⟩

/-- C4: in the `need_date` state, every input whose stripped text parses
    under the `%d.%m.%Y` calendar format is accepted — the parsed date is the
    only field recorded and the state advances exactly once, to the
    delivery-mode state; every other input leaves the state and the whole
    draft unchanged and re-issues the date prompt as the format-error reply,
    so the same field is asked for again. -/
theorem date_state_parse_transition (text : String) (d : DraftData) :
    (∀ dt : Date, strptimeDMY (pyStrip text) = some dt →
      req_need_date text d =
        (DialogState.delivery_type, { d with need_datetime := some dt },
         [Reply.promptDelivery]))
    ∧ (strptimeDMY (pyStrip text) = none →
      req_need_date text d = (DialogState.need_date, d, [Reply.errorBadDate])) := by
  constructor
  · intro dt h
    simp [req_need_date, h]
  · intro h
    simp [req_need_date, h]

/-- C4 witness: " 03.03.2026 " parses and advances to delivery selection with
    the date recorded; "31.02.2026" is not a calendar date, so nothing
    changes and the error reply is issued. -/
theorem date_state_parse_transition_app :
    req_need_date " 03.03.2026 " emptyDraft =
      (DialogState.delivery_type, { emptyDraft with need_datetime := some ⟨3, 3, 2026⟩ },
       [Reply.promptDelivery])
    ∧ req_need_date "31.02.2026" emptyDraft =
      (DialogState.need_date, emptyDraft, [Reply.errorBadDate]) :=
  ⟨(date_state_parse_transition " 03.03.2026 " emptyDraft).1 ⟨3, 3, 2026⟩ (by decide),
   (date_state_parse_transition "31.02.2026" emptyDraft).2 (by decide)⟩

/-- C5 counterexample: the claim says a courier draft is asked for the
    address before the payment mode is prompted. In the code, choosing
    courier delivery in the delivery state moves straight to the payment
    state and prompts payment — not the address. -/
theorem courier_payment_prompted_before_address :
    req_delivery "delivery" emptyDraft =
      (DialogState.payment_type, { emptyDraft with delivery_type := some "delivery" },
       [Reply.promptPayment])
    ∧ (req_delivery "delivery" emptyDraft).1 ≠ DialogState.address
    ∧ (req_delivery "delivery" emptyDraft).2.2 ≠ [Reply.promptAddress] := by
  refine ⟨rfl, ?_, ?_⟩ <;> decide

/-- C5 amended: the address branch sits after the phone state, not before the
    payment state. A pickup draft never enters the address state — after the
    phone it goes straight to the comment prompt with the address field
    untouched — and the committed row's address is exactly the draft's, which
    is null for the walkthrough run from a fresh draft. A courier draft is
    sent from the phone state to the address state, whose handler records the
    address before moving on to the comment state; this is the only
    conditional branch in the otherwise-linear chain. -/
theorem address_branch_after_phone (d : DraftData) (text addr : String) (u pid : Nat) :
    (d.delivery_type = some "pickup" →
      req_phone text d =
        (DialogState.comment, { d with phone := some (pyStrip text) },
         [Reply.promptComment]))
    ∧ (d.delivery_type = some "delivery" →
      req_phone text d =
        (DialogState.address, { d with phone := some (pyStrip text) },
         [Reply.promptAddress]))
    ∧ req_address addr d =
        (DialogState.comment, { d with address := some (pyStrip addr) },
         [Reply.promptComment])
    ∧ (mkRequest u pid d).address = d.address
    ∧ scenarioRun.store = [scenarioRecord]
    ∧ scenarioRecord.address = none
    ∧ scenarioRecord.delivery_type = some "pickup" := by
  refine ⟨?_, ?_, rfl, rfl, by decide, by decide, by decide⟩
  · intro h
    simp [req_phone, h]
  · intro h
    simp [req_phone, h]

/-- C5 amended witness: from drafts that chose pickup and courier, the same
    phone input leads to the comment prompt and to the address prompt
    respectively. -/
theorem address_branch_after_phone_app :
    req_phone "+70000000000" { emptyDraft with delivery_type := some "pickup" } =
      (DialogState.comment,
       { emptyDraft with delivery_type := some "pickup",
                         phone := some "+70000000000" },
       [Reply.promptComment])
    ∧ req_phone "+70000000000" { emptyDraft with delivery_type := some "delivery" } =
      (DialogState.address,
       { emptyDraft with delivery_type := some "delivery",
                         phone := some "+70000000000" },
       [Reply.promptAddress]) :=
  ⟨(address_branch_after_phone { emptyDraft with delivery_type := some "pickup" }
      "+70000000000" "" 0 0).1 rfl,
   (address_branch_after_phone { emptyDraft with delivery_type := some "delivery" }
      "+70000000000" "" 0 0).2.1 rfl⟩

/-- C9: the claim that index-based browsing never crashes is violated, and
    not only at a stale index. At the claim's own scenario — a navigation
    index minted from a previously rendered three-item list, replayed after
    the version marker invalidated the cache — the refetch itself raises
    `AttributeError` at `Product.is_in_stock.desc()` (user.py line 112,
    a column src/app/models.py does not declare), so the display dies before
    any list exists (first conjunct). Were a cached one-item list served
    instead, the stale index 2 would hit the unguarded `products[2]` and
    raise `IndexError` (user.py line 259, second conjunct), and even an
    in-range index raises `AttributeError` at `product.is_in_stock`
    (user.py line 265, third conjunct): no branch with products completes. -/
theorem nav_index_after_refetch_raises :
    show_product [sampleProduct 1] (some "2") 1000 staleThreeCache
        "bouquet" 0 999999 2 =
      (NavOutcome.raisedFetchError PyErr.attributeError,
       { entries := [], lastVersion := some "2" })
    ∧ show_product [sampleProduct 1] (some "1") 1000 oneItemCache
        "bouquet" 0 999999 2 = (NavOutcome.raisedIndexError, oneItemCache)
    ∧ show_product [sampleProduct 1] (some "1") 1000 oneItemCache
        "bouquet" 0 999999 0 = (NavOutcome.raisedAttributeError, oneItemCache) :=
  ⟨by decide, by decide, by decide⟩

/-- C7: the claimed idempotent cached fetch cannot occur in this source
    snapshot. Every call that misses the cache reaches the fresh-fetch
    statement, which raises before producing a list (`AttributeError` at the
    `Product.is_in_stock.desc()` ordering for a known category, `ValueError`
    for an unknown one), and no call ever writes a cache entry — the write
    at user.py line 118 sits after the raise. Hence from the process's
    initial empty cache every fetch raises and the hypothesised first call
    that returns and caches a list is unreachable. -/
theorem catalog_fetch_never_populates (store : List Product) (file : Option String)
    (now : Nat) (cs0 : CacheState) (c : String) (a b : Nat) :
    ((cacheAfterVersionCheck cs0 (readVersion file)).entries = [] →
      (get_products_cached store file now cs0 c a b).outcome =
        FetchOutcome.raised (freshFetch c))
    ∧ (get_products_cached store file now cs0 c a b).cache.entries =
        (cacheAfterVersionCheck cs0 (readVersion file)).entries := by
  constructor
  · intro hempty
    unfold get_products_cached lookupStage
    rw [hempty]
    rfl
  · unfold get_products_cached
    rw [lookupStage_cache_unchanged]

/-- C7 witness: the very first call of a process (empty cache, no version
    file yet) over a one-product store raises `AttributeError` and leaves the
    cache entries empty. -/
theorem catalog_fetch_never_populates_app :
    (get_products_cached [sampleProduct 1] none 0
        { entries := [], lastVersion := none } "bouquet" 0 999999).outcome =
      FetchOutcome.raised (freshFetch "bouquet")
    ∧ (get_products_cached [sampleProduct 1] none 0
        { entries := [], lastVersion := none } "bouquet" 0 999999).cache.entries =
      (cacheAfterVersionCheck { entries := [], lastVersion := none }
        (readVersion none)).entries :=
  ⟨(catalog_fetch_never_populates [sampleProduct 1] none 0
      { entries := [], lastVersion := none } "bouquet" 0 999999).1 (by decide),
   (catalog_fetch_never_populates [sampleProduct 1] none 0
      { entries := [], lastVersion := none } "bouquet" 0 999999).2⟩

/-- C8: the version marker is read and compared at the top of every call and
    a difference does discard all cached entries before anything else — but
    the claimed full refetch never completes: the call then necessarily
    misses the emptied cache and the fresh fetch raises (`AttributeError`
    at the `Product.is_in_stock.desc()` ordering), with the TTL and the
    count validation never consulted (`countQueried = false`, `now`
    arbitrary) and no list returned or cached. -/
theorem version_change_clears_then_raises (store : List Product)
    (file : Option String) (now : Nat) (cs0 : CacheState) (c : String) (a b : Nat)
    (hver : cs0.lastVersion ≠ some (readVersion file)) :
    get_products_cached store file now cs0 c a b =
      { outcome := FetchOutcome.raised (freshFetch c)
        cache := { entries := [], lastVersion := some (readVersion file) }
        countQueried := false } := by
  have hclr : cacheAfterVersionCheck cs0 (readVersion file) =
      { entries := [], lastVersion := some (readVersion file) } := by
    unfold cacheAfterVersionCheck
    rw [if_neg hver]
  unfold get_products_cached
  rw [hclr]
  rfl

/-- C8 witness: a three-item entry cached at time 900 under marker "1" is
    discarded at time 1000 — still within its 300-second TTL — because the
    marker now reads "2", and the attempted refetch of the one-product store
    raises `AttributeError` instead of returning a list. -/
theorem version_change_clears_then_raises_app :
    get_products_cached [sampleProduct 1] (some "2") 1000 staleThreeCache
        "bouquet" 0 999999 =
      { outcome := FetchOutcome.raised (freshFetch "bouquet")
        cache := { entries := [], lastVersion := some (readVersion (some "2")) }
        countQueried := false } :=
  version_change_clears_then_raises [sampleProduct 1] (some "2") 1000
    staleThreeCache "bouquet" 0 999999 (by decide)

end FlowerBot
